import Mathlib

/-!
# The Opus JNI binding (`app/src/main/cpp/opus_jni.cpp`)

A shallow embedding of the four JNI entry points of the binding:
`nativeCreateDecoder`, `nativeDecode`, `nativeResetDecoder` and
`nativeDestroyDecoder`.

The binding has no state of its own.  Everything it does is a call into one of
three foreign interfaces: the Android log, the JNI environment and the Opus
library.  The embedding therefore passes an explicit `World` through every
entry point.  The world records

* `trace`: every foreign call made so far, oldest first, with its arguments
  and its answer;
* `live`: the native decoder states handed out by `opus_decoder_create` and
  not yet given to `opus_decoder_destroy`.

What the foreign interfaces answer is not decided by the binding, so the
answers are parameters (`Opus`, `JNIEnv`): arbitrary functions of the world in
which the call is made and of the call's arguments.  The theorems hold for
every such answer.

Machine types: `jint`, `jbyte`, `jshort` and C `int` values are carried as
`Int`; the binding does no arithmetic on them.  A pointer is a 64-bit word
(LP64, as on arm64 Android), carried as a `Nat` below `2 ^ 64`; `jlong` is its
two's-complement reading.
-/

namespace OpusJni

/-! ## Constants of the foreign headers -/

/-- Modelled from the spec: `OPUS_OK` of `opus_defines.h`, a header of the
wrapped library that is not part of the repository. -/
def OPUS_OK : Int := 0

/-- Modelled from the spec: `OPUS_INVALID_STATE` of `opus_defines.h` (the
`InvalidState` code), a header of the wrapped library that is not part of the
repository. -/
def OPUS_INVALID_STATE : Int := -6

/-- Modelled from the spec: `OPUS_ALLOC_FAIL` of `opus_defines.h` (the
`AllocationFailure` code), a header of the wrapped library that is not part of the
repository. -/
def OPUS_ALLOC_FAIL : Int := -7

/-- Modelled from the spec: the request number `OPUS_RESET_STATE` of
`opus_defines.h`, a header of the wrapped library that is not part of the
repository. -/
def OPUS_RESET_STATE : Int := 4028

/-- Modelled from the spec: the release mode `JNI_ABORT` of `jni.h` (free the
native buffer without copying it back), a header that is not part of the
repository. -/
def JNI_ABORT : Int := 2

/-! ## Pointers and handles -/

/-- A native address: a 64-bit word. -/
abbrev Ptr := Nat

/-- The null pointer. -/
def nullptr : Ptr := 0

/-- The cast `reinterpret_cast<jlong>(decoder)`: the 64-bit word read as a
signed two's-complement integer. -/
def reinterpret_cast_jlong (p : Ptr) : Int :=
  if p % 2 ^ 64 < 2 ^ 63 then ((p % 2 ^ 64 : Nat) : Int)
  else ((p % 2 ^ 64 : Nat) : Int) - 2 ^ 64

/-- The cast `reinterpret_cast<OpusDecoder *>(decoder_handle)`: the `jlong`
read back as a 64-bit word. -/
def reinterpret_cast_OpusDecoder (decoder_handle : Int) : Ptr :=
  (decoder_handle % 2 ^ 64).toNat

/-! ## The world -/

/-- The priorities used by the `LOGD`, `LOGI` and `LOGE` macros. -/
inductive LogPriority where
  | ANDROID_LOG_DEBUG
  | ANDROID_LOG_INFO
  | ANDROID_LOG_ERROR
  deriving DecidableEq, Repr

/-- One foreign call, with its arguments and (where it has one) its answer.
Arrays are carried by content. -/
inductive Event where
  /-- The call `__android_log_print(prio, TAG, fmt, ...)`. -/
  | log (prio : LogPriority) (fmt : String)
  /-- The call `env->GetByteArrayElements(array, nullptr)`; `ok` is false when
  it answered `nullptr`. -/
  | GetByteArrayElements (array : List Int) (ok : Bool)
  /-- The call `env->GetShortArrayElements(array, nullptr)`; `ok` is false
  when it answered `nullptr`. -/
  | GetShortArrayElements (array : List Int) (ok : Bool)
  /-- The call `env->ReleaseByteArrayElements(array, elems, mode)`. -/
  | ReleaseByteArrayElements (array elems : List Int) (mode : Int)
  /-- The call `env->ReleaseShortArrayElements(array, elems, mode)`. -/
  | ReleaseShortArrayElements (array elems : List Int) (mode : Int)
  /-- The call `opus_decoder_create(Fs, channels, &error)` and its answer. -/
  | opus_decoder_create (Fs channels : Int) (error : Int) (st : Ptr)
  /-- The call `opus_decode(st, data, len, pcm, frame_size, decode_fec)` and
  the integer it returned; `pcm` is the buffer as passed in. -/
  | opus_decode (st : Ptr) (data : List Int) (len : Int) (pcm : List Int)
      (frame_size : Int) (decode_fec : Int) (ret : Int)
  /-- The call `opus_decoder_ctl(st, request)` and its answer. -/
  | opus_decoder_ctl (st : Ptr) (request : Int) (ret : Int)
  /-- The call `opus_decoder_destroy(st)`. -/
  | opus_decoder_destroy (st : Ptr)
  deriving DecidableEq, Repr

/-- The state outside the binding. -/
structure World where
  /-- Native decoder states created and not yet destroyed. -/
  live : List Ptr
  /-- The foreign calls made so far, oldest first. -/
  trace : List Event
  deriving DecidableEq, Repr

/-- The answers of the Opus library: functions of the world in which the call
is made and of the call's arguments. -/
structure Opus where
  /-- The answer of `opus_decoder_create`: the value stored in `error` and the
  returned pointer. -/
  opus_decoder_create : World → Int → Int → Int × Ptr
  /-- The answer of `opus_decode`: the returned integer and the contents of
  the pcm buffer afterwards. -/
  opus_decode : World → Ptr → List Int → Int → List Int → Int → Int → Int × List Int
  /-- The answer of `opus_decoder_ctl`. -/
  opus_decoder_ctl : World → Ptr → Int → Int

/-- The answers of the JNI environment: whether an acquisition yields a
buffer (`true`) or `nullptr` (`false`). -/
structure JNIEnv where
  /-- Whether `GetByteArrayElements` succeeds. -/
  GetByteArrayElements : World → List Int → Bool
  /-- Whether `GetShortArrayElements` succeeds. -/
  GetShortArrayElements : World → List Int → Bool

/-- Record a foreign call. -/
def World.emit (w : World) (e : Event) : World :=
  { w with trace := w.trace ++ [e] }

/-- The events recorded between world `w` and the later world `w1`. -/
def World.since (w1 w : World) : List Event :=
  w1.trace.drop w.trace.length

/-- The macro `LOGD`. -/
def LOGD (w : World) (fmt : String) : World :=
  w.emit (Event.log LogPriority.ANDROID_LOG_DEBUG fmt)

/-- The macro `LOGI`. -/
def LOGI (w : World) (fmt : String) : World :=
  w.emit (Event.log LogPriority.ANDROID_LOG_INFO fmt)

/-- The macro `LOGE`. -/
def LOGE (w : World) (fmt : String) : World :=
  w.emit (Event.log LogPriority.ANDROID_LOG_ERROR fmt)

/-- Calling `opus_decoder_create`: the library answers, the call is recorded,
and a non-null answer is a new native state. The pointer is a 64-bit word. -/
def call_opus_decoder_create (lib : Opus) (w : World) (Fs channels : Int) :
    (Int × Ptr) × World :=
  let error := (lib.opus_decoder_create w Fs channels).1
  let st := (lib.opus_decoder_create w Fs channels).2 % 2 ^ 64
  ((error, st),
   { live := if st = nullptr then w.live else w.live ++ [st],
     trace := w.trace ++ [Event.opus_decoder_create Fs channels error st] })

/-- Calling `opus_decode`: the library answers with an integer and the new
contents of the pcm buffer; the call is recorded. The input is `const`. -/
def call_opus_decode (lib : Opus) (w : World) (st : Ptr) (data : List Int) (len : Int)
    (pcm : List Int) (frame_size decode_fec : Int) : (Int × List Int) × World :=
  let r := lib.opus_decode w st data len pcm frame_size decode_fec
  (r, w.emit (Event.opus_decode st data len pcm frame_size decode_fec r.1))

/-- Calling `opus_decoder_ctl`: the library answers; the call is recorded. -/
def call_opus_decoder_ctl (lib : Opus) (w : World) (st : Ptr) (request : Int) :
    Int × World :=
  let r := lib.opus_decoder_ctl w st request
  (r, w.emit (Event.opus_decoder_ctl st request r))

/-- Calling `opus_decoder_destroy`: the state is no longer live; the call is
recorded. -/
def call_opus_decoder_destroy (w : World) (st : Ptr) : World :=
  { live := w.live.filter (fun q => q ≠ st),
    trace := w.trace ++ [Event.opus_decoder_destroy st] }

/-- Calling `env->GetByteArrayElements(array, nullptr)`: a buffer holding the
array's elements, or `none` for `nullptr`. -/
def call_GetByteArrayElements (env : JNIEnv) (w : World) (array : List Int) :
    Option (List Int) × World :=
  let ok := env.GetByteArrayElements w array
  (if ok then some array else none, w.emit (Event.GetByteArrayElements array ok))

/-- Calling `env->GetShortArrayElements(array, nullptr)`: a buffer holding the
array's elements, or `none` for `nullptr`. -/
def call_GetShortArrayElements (env : JNIEnv) (w : World) (array : List Int) :
    Option (List Int) × World :=
  let ok := env.GetShortArrayElements w array
  (if ok then some array else none, w.emit (Event.GetShortArrayElements array ok))

/-- What a Java array holds after its elements are released: with `JNI_ABORT`
the buffer is dropped, otherwise its contents are the array's. -/
def releasedArray (array elems : List Int) (mode : Int) : List Int :=
  if mode = JNI_ABORT then array else elems

/-- Calling `env->ReleaseByteArrayElements(array, elems, mode)`. -/
def call_ReleaseByteArrayElements (w : World) (array elems : List Int) (mode : Int) :
    List Int × World :=
  (releasedArray array elems mode, w.emit (Event.ReleaseByteArrayElements array elems mode))

/-- Calling `env->ReleaseShortArrayElements(array, elems, mode)`. -/
def call_ReleaseShortArrayElements (w : World) (array elems : List Int) (mode : Int) :
    List Int × World :=
  (releasedArray array elems mode, w.emit (Event.ReleaseShortArrayElements array elems mode))

/-! ## The entry points -/

/-- The function `Java_..._OpusDecoder_nativeCreateDecoder`: the returned
handle and the world afterwards. -/
def nativeCreateDecoder (lib : Opus) (w : World) (sample_rate channels : Int) :
    Int × World :=
  let w0 := LOGI w "Creating Opus decoder: %dHz, %d channel(s)"
  let r := call_opus_decoder_create lib w0 sample_rate channels
  let error := r.1.1
  let decoder := r.1.2
  if error ≠ OPUS_OK ∨ decoder = nullptr then
    (0, LOGE r.2 "Failed to create decoder: %s")
  else
    (reinterpret_cast_jlong decoder, LOGI r.2 "✓ Decoder created successfully at %p")

/-- What `nativeDecode` leaves behind: the returned `jint`, the two Java
arrays as the caller sees them afterwards, and the world. -/
structure DecodeOutcome where
  /-- The returned `jint`. -/
  ret : Int
  /-- The Java byte array after the call. -/
  opus_data : List Int
  /-- The Java short array after the call. -/
  pcm_data : List Int
  /-- The world after the call. -/
  world : World
  deriving DecidableEq, Repr

/-- The function `Java_..._OpusDecoder_nativeDecode`. The input bytes are
carried as their `jbyte` values; the cast to `const unsigned char *` changes
only how the library reads them. -/
def nativeDecode (env : JNIEnv) (lib : Opus) (w : World) (decoder_handle : Int)
    (opus_data : List Int) (opus_length : Int) (pcm_data : List Int) (frame_size : Int) :
    DecodeOutcome :=
  if decoder_handle = 0 then
    { ret := OPUS_INVALID_STATE, opus_data := opus_data, pcm_data := pcm_data,
      world := LOGE w "Invalid decoder handle" }
  else
    let decoder := reinterpret_cast_OpusDecoder decoder_handle
    -- Get Opus data
    match call_GetByteArrayElements env w opus_data with
    | (none, w1) =>
      { ret := OPUS_ALLOC_FAIL, opus_data := opus_data, pcm_data := pcm_data,
        world := LOGE w1 "Failed to get Opus data" }
    | (some opus_bytes, w1) =>
      -- Get PCM buffer
      match call_GetShortArrayElements env w1 pcm_data with
      | (none, w2) =>
        let rb := call_ReleaseByteArrayElements w2 opus_data opus_bytes JNI_ABORT
        { ret := OPUS_ALLOC_FAIL, opus_data := rb.1, pcm_data := pcm_data,
          world := LOGE rb.2 "Failed to get PCM buffer" }
      | (some pcm_shorts, w2) =>
        -- Decode
        let d := call_opus_decode lib w2 decoder opus_bytes opus_length pcm_shorts frame_size 0
        let samples := d.1.1
        -- Release arrays
        let rb := call_ReleaseByteArrayElements d.2 opus_data opus_bytes JNI_ABORT
        let rs := call_ReleaseShortArrayElements rb.2 pcm_data d.1.2 0
        { ret := samples, opus_data := rb.1, pcm_data := rs.1,
          world :=
            if samples < 0 then LOGE rs.2 "Decode error: %s (code: %d)"
            else LOGD rs.2 "Decoded %d samples from %d bytes" }

/-- The function `Java_..._OpusDecoder_nativeResetDecoder` (returns `void`). -/
def nativeResetDecoder (lib : Opus) (w : World) (decoder_handle : Int) : Unit × World :=
  if decoder_handle = 0 then
    ((), LOGE w "Invalid decoder handle for reset")
  else
    let decoder := reinterpret_cast_OpusDecoder decoder_handle
    let r := call_opus_decoder_ctl lib w decoder OPUS_RESET_STATE
    let result := r.1
    if result ≠ OPUS_OK then
      ((), LOGE r.2 "Failed to reset decoder: %s")
    else
      ((), LOGI r.2 "Decoder reset successfully")

/-- The function `Java_..._OpusDecoder_nativeDestroyDecoder` (returns
`void`). -/
def nativeDestroyDecoder (w : World) (decoder_handle : Int) : Unit × World :=
  if decoder_handle = 0 then
    ((), LOGE w "Invalid decoder handle for destroy")
  else
    let decoder := reinterpret_cast_OpusDecoder decoder_handle
    let w1 := call_opus_decoder_destroy w decoder
    ((), LOGI w1 "✓ Decoder destroyed at %p")

/-! ## Vocabulary of the statements -/

/-- A call to `GetByteArrayElements` or `GetShortArrayElements`, whatever it
answered. -/
def Event.isGet : Event → Bool
  | Event.GetByteArrayElements _ _ => true
  | Event.GetShortArrayElements _ _ => true
  | _ => false

/-- A call to `ReleaseByteArrayElements` or `ReleaseShortArrayElements`. -/
def Event.isRelease : Event → Bool
  | Event.ReleaseByteArrayElements _ _ _ => true
  | Event.ReleaseShortArrayElements _ _ _ => true
  | _ => false

/-- A call to the decode primitive `opus_decode`. -/
def Event.isDecode : Event → Bool
  | Event.opus_decode _ _ _ _ _ _ _ => true
  | _ => false

/-- A call to `opus_decoder_ctl`. -/
def Event.isCtl : Event → Bool
  | Event.opus_decoder_ctl _ _ _ => true
  | _ => false

/-- A call to the release routine `opus_decoder_destroy`. -/
def Event.isDestroy : Event → Bool
  | Event.opus_decoder_destroy _ => true
  | _ => false

/-- A call to `GetByteArrayElements` that yielded a buffer. -/
def Event.acquiredBytes : Event → Bool
  | Event.GetByteArrayElements _ ok => ok
  | _ => false

/-- A call to `GetShortArrayElements` that yielded a buffer. -/
def Event.acquiredShorts : Event → Bool
  | Event.GetShortArrayElements _ ok => ok
  | _ => false

/-- A call to `ReleaseByteArrayElements`. -/
def Event.releasedBytes : Event → Bool
  | Event.ReleaseByteArrayElements _ _ _ => true
  | _ => false

/-- A call to `ReleaseShortArrayElements`. -/
def Event.releasedShorts : Event → Bool
  | Event.ReleaseShortArrayElements _ _ _ => true
  | _ => false

/-- The world in which `nativeDecode` asks for the pcm buffer: the input
bytes were acquired. -/
def afterBytes (w : World) (opus_data : List Int) : World :=
  w.emit (Event.GetByteArrayElements opus_data true)

/-- The world in which `nativeDecode` calls the decode primitive: both
buffers were acquired. -/
def afterShorts (w : World) (opus_data pcm_data : List Int) : World :=
  (afterBytes w opus_data).emit (Event.GetShortArrayElements pcm_data true)

/-- The answer `(error, decoder)` that `nativeCreateDecoder` gets from
`opus_decoder_create`. -/
def createAnswer (lib : Opus) (w : World) (sample_rate channels : Int) : Int × Ptr :=
  (call_opus_decoder_create lib (LOGI w "Creating Opus decoder: %dHz, %d channel(s)")
    sample_rate channels).1

/-- The answer that `nativeResetDecoder` gets from `opus_decoder_ctl`. -/
def resetAnswer (lib : Opus) (w : World) (decoder_handle : Int) : Int :=
  (call_opus_decoder_ctl lib w (reinterpret_cast_OpusDecoder decoder_handle)
    OPUS_RESET_STATE).1

/-! ## Sample foreign interfaces -/

/-- An environment in which both acquisitions succeed. -/
def envOk : JNIEnv :=
  { GetByteArrayElements := fun _ _ => true, GetShortArrayElements := fun _ _ => true }

/-- An environment that cannot pin the input bytes. -/
def envNoBytes : JNIEnv :=
  { GetByteArrayElements := fun _ _ => false, GetShortArrayElements := fun _ _ => true }

/-- An environment that pins the input bytes and cannot pin the pcm buffer. -/
def envNoShorts : JNIEnv :=
  { GetByteArrayElements := fun _ _ => true, GetShortArrayElements := fun _ _ => false }

/-- A sample library: creation succeeds at address 4096 for the rates and
channel counts Opus supports and otherwise answers `OPUS_BAD_ARG` with a null
state; decoding answers `frame_size` and silence; a control request answers
`OPUS_OK`. -/
def libSample : Opus :=
  { opus_decoder_create := fun _ Fs channels =>
      if (Fs = 48000 ∨ Fs = 24000 ∨ Fs = 16000 ∨ Fs = 12000 ∨ Fs = 8000)
          ∧ (channels = 1 ∨ channels = 2) then (0, 4096) else (-1, 0),
    opus_decode := fun _ _ _ _ pcm frame_size _ => (frame_size, pcm.map (fun _ => 0)),
    opus_decoder_ctl := fun _ _ _ => 0 }

/-- A sample library whose creation reports `OPUS_INTERNAL_ERROR` and yet
hands back a state, at address 4096. -/
def libErrorWithState : Opus :=
  { opus_decoder_create := fun _ _ _ => (-3, 4096),
    opus_decode := fun _ _ _ _ pcm _ _ => (-3, pcm),
    opus_decoder_ctl := fun _ _ _ => -3 }

/-- A sample library whose decoding and control requests fail with
`OPUS_INVALID_PACKET`. -/
def libFailing : Opus :=
  { opus_decoder_create := fun _ _ _ => (0, 4096),
    opus_decode := fun _ _ _ _ pcm _ _ => (-4, pcm),
    opus_decoder_ctl := fun _ _ _ => -4 }

/-- The world before any call. -/
def World.init : World := { live := [], trace := [] }

/-- A sample run: a decoder is created for 48000 Hz, two channels. -/
def runCreated : Int × World :=
  nativeCreateDecoder libSample World.init 48000 2

/-- The sample run, continued: the handle just created is destroyed. -/
def runDestroyed : World :=
  (nativeDestroyDecoder runCreated.2 runCreated.1).2

/-- The sample run, continued: a frame is decoded through the destroyed
handle. -/
def runDecodeAfterDestroy : DecodeOutcome :=
  nativeDecode envOk libSample runDestroyed runCreated.1 [1, 2, 3] 3 [7, 7] 2

/-! ## The outcome of `nativeDecode` on each of its paths -/

theorem since_of_trace (w1 w : World) (es : List Event) (h : w1.trace = w.trace ++ es) :
    w1.since w = es := by
  simp [World.since, h]

theorem nativeDecode_path_zero (env : JNIEnv) (lib : Opus) (w : World)
    (opus_data : List Int) (opus_length : Int) (pcm_data : List Int) (frame_size : Int) :
    nativeDecode env lib w 0 opus_data opus_length pcm_data frame_size =
      { ret := OPUS_INVALID_STATE, opus_data := opus_data, pcm_data := pcm_data,
        world := { live := w.live,
                   trace := w.trace ++
                     [Event.log LogPriority.ANDROID_LOG_ERROR "Invalid decoder handle"] } } := by
  simp [nativeDecode, LOGE, World.emit]

theorem nativeDecode_path_noBytes (env : JNIEnv) (lib : Opus) (w : World)
    (decoder_handle : Int) (opus_data : List Int) (opus_length : Int) (pcm_data : List Int)
    (frame_size : Int) (hh : decoder_handle ≠ 0)
    (hb : env.GetByteArrayElements w opus_data = false) :
    nativeDecode env lib w decoder_handle opus_data opus_length pcm_data frame_size =
      { ret := OPUS_ALLOC_FAIL, opus_data := opus_data, pcm_data := pcm_data,
        world := { live := w.live,
                   trace := w.trace ++
                     [Event.GetByteArrayElements opus_data false,
                      Event.log LogPriority.ANDROID_LOG_ERROR "Failed to get Opus data"] } } := by
  simp [nativeDecode, hh, call_GetByteArrayElements, hb, LOGE, World.emit]

theorem nativeDecode_path_noShorts (env : JNIEnv) (lib : Opus) (w : World)
    (decoder_handle : Int) (opus_data : List Int) (opus_length : Int) (pcm_data : List Int)
    (frame_size : Int) (hh : decoder_handle ≠ 0)
    (hb : env.GetByteArrayElements w opus_data = true)
    (hs : env.GetShortArrayElements (afterBytes w opus_data) pcm_data = false) :
    nativeDecode env lib w decoder_handle opus_data opus_length pcm_data frame_size =
      { ret := OPUS_ALLOC_FAIL, opus_data := opus_data, pcm_data := pcm_data,
        world := { live := w.live,
                   trace := w.trace ++
                     [Event.GetByteArrayElements opus_data true,
                      Event.GetShortArrayElements pcm_data false,
                      Event.ReleaseByteArrayElements opus_data opus_data JNI_ABORT,
                      Event.log LogPriority.ANDROID_LOG_ERROR "Failed to get PCM buffer"] } } := by
  simp only [afterBytes, World.emit] at hs
  simp [nativeDecode, hh, call_GetByteArrayElements, hb, call_GetShortArrayElements, hs,
    call_ReleaseByteArrayElements, releasedArray, LOGE, World.emit]

theorem nativeDecode_path_decode (env : JNIEnv) (lib : Opus) (w : World)
    (decoder_handle : Int) (opus_data : List Int) (opus_length : Int) (pcm_data : List Int)
    (frame_size : Int) (hh : decoder_handle ≠ 0)
    (hb : env.GetByteArrayElements w opus_data = true)
    (hs : env.GetShortArrayElements (afterBytes w opus_data) pcm_data = true) :
    nativeDecode env lib w decoder_handle opus_data opus_length pcm_data frame_size =
      { ret := (lib.opus_decode (afterShorts w opus_data pcm_data)
                  (reinterpret_cast_OpusDecoder decoder_handle)
                  opus_data opus_length pcm_data frame_size 0).1,
        opus_data := opus_data,
        pcm_data := (lib.opus_decode (afterShorts w opus_data pcm_data)
                  (reinterpret_cast_OpusDecoder decoder_handle)
                  opus_data opus_length pcm_data frame_size 0).2,
        world := { live := w.live,
                   trace := w.trace ++
                     [Event.GetByteArrayElements opus_data true,
                      Event.GetShortArrayElements pcm_data true,
                      Event.opus_decode (reinterpret_cast_OpusDecoder decoder_handle)
                        opus_data opus_length pcm_data frame_size 0
                        (lib.opus_decode (afterShorts w opus_data pcm_data)
                          (reinterpret_cast_OpusDecoder decoder_handle)
                          opus_data opus_length pcm_data frame_size 0).1,
                      Event.ReleaseByteArrayElements opus_data opus_data JNI_ABORT,
                      Event.ReleaseShortArrayElements pcm_data
                        (lib.opus_decode (afterShorts w opus_data pcm_data)
                          (reinterpret_cast_OpusDecoder decoder_handle)
                          opus_data opus_length pcm_data frame_size 0).2 0,
                      Event.log
                        (if (lib.opus_decode (afterShorts w opus_data pcm_data)
                              (reinterpret_cast_OpusDecoder decoder_handle)
                              opus_data opus_length pcm_data frame_size 0).1 < 0
                         then LogPriority.ANDROID_LOG_ERROR else LogPriority.ANDROID_LOG_DEBUG)
                        (if (lib.opus_decode (afterShorts w opus_data pcm_data)
                              (reinterpret_cast_OpusDecoder decoder_handle)
                              opus_data opus_length pcm_data frame_size 0).1 < 0
                         then "Decode error: %s (code: %d)"
                         else "Decoded %d samples from %d bytes")] } } := by
  simp only [afterShorts, afterBytes, World.emit] at hs ⊢
  simp [nativeDecode, hh, call_GetByteArrayElements, hb, call_GetShortArrayElements, hs,
    call_ReleaseByteArrayElements, call_ReleaseShortArrayElements, call_opus_decode,
    releasedArray, LOGE, LOGD, World.emit, JNI_ABORT]
  split_ifs <;> simp

/-! ## `nativeDecode` -/

/-- C1: with handle 0, `nativeDecode` returns `OPUS_INVALID_STATE` (which is
-6, a negative value) whatever the buffers, lengths and the environment are;
both Java arrays and the set of live states are as before, and the only
foreign call it makes is the error log: no array is asked of or released to
the JNI environment and the decode primitive is not invoked. -/
theorem nativeDecode_zero_handle_invalid_state (env : JNIEnv) (lib : Opus) (w : World)
    (opus_data : List Int) (opus_length : Int) (pcm_data : List Int) (frame_size : Int) :
    (nativeDecode env lib w 0 opus_data opus_length pcm_data frame_size).ret
        = OPUS_INVALID_STATE
    ∧ OPUS_INVALID_STATE = -6
    ∧ (nativeDecode env lib w 0 opus_data opus_length pcm_data frame_size).ret < 0
    ∧ (nativeDecode env lib w 0 opus_data opus_length pcm_data frame_size).pcm_data
        = pcm_data
    ∧ (nativeDecode env lib w 0 opus_data opus_length pcm_data frame_size).opus_data
        = opus_data
    ∧ (nativeDecode env lib w 0 opus_data opus_length pcm_data frame_size).world.live
        = w.live
    ∧ (nativeDecode env lib w 0 opus_data opus_length pcm_data frame_size).world.since w
        = [Event.log LogPriority.ANDROID_LOG_ERROR "Invalid decoder handle"]
    ∧ (∀ e ∈ (nativeDecode env lib w 0 opus_data opus_length pcm_data
          frame_size).world.since w,
        e.isGet = false ∧ e.isRelease = false ∧ e.isDecode = false) := by
  rw [nativeDecode_path_zero]
  refine ⟨rfl, rfl, by norm_num [OPUS_INVALID_STATE], rfl, rfl, rfl,
    since_of_trace _ _ _ rfl, ?_⟩
  rw [since_of_trace _ _ _ rfl]
  intro e he
  simp only [List.mem_singleton] at he
  subst he
  exact ⟨rfl, rfl, rfl⟩

/-- C2: for a non-zero handle and both buffers acquired, `nativeDecode`
invokes `opus_decode` exactly once, with the decoder the handle stands for,
the acquired input bytes, `opus_length`, the acquired pcm buffer,
`frame_size` and `decode_fec = 0`; it returns exactly the integer the
primitive returned (negative or not), and the pcm array holds what the
primitive wrote. -/
theorem nativeDecode_forwards_to_opus_decode (env : JNIEnv) (lib : Opus) (w : World)
    (decoder_handle : Int) (opus_data : List Int) (opus_length : Int) (pcm_data : List Int)
    (frame_size : Int) (hh : decoder_handle ≠ 0)
    (hb : env.GetByteArrayElements w opus_data = true)
    (hs : env.GetShortArrayElements (afterBytes w opus_data) pcm_data = true) :
    ((nativeDecode env lib w decoder_handle opus_data opus_length pcm_data
        frame_size).world.since w).filter Event.isDecode
      = [Event.opus_decode (reinterpret_cast_OpusDecoder decoder_handle) opus_data
          opus_length pcm_data frame_size 0
          (nativeDecode env lib w decoder_handle opus_data opus_length pcm_data
            frame_size).ret]
    ∧ (nativeDecode env lib w decoder_handle opus_data opus_length pcm_data frame_size).ret
      = (lib.opus_decode (afterShorts w opus_data pcm_data)
          (reinterpret_cast_OpusDecoder decoder_handle)
          opus_data opus_length pcm_data frame_size 0).1
    ∧ (nativeDecode env lib w decoder_handle opus_data opus_length pcm_data
        frame_size).pcm_data
      = (lib.opus_decode (afterShorts w opus_data pcm_data)
          (reinterpret_cast_OpusDecoder decoder_handle)
          opus_data opus_length pcm_data frame_size 0).2 := by
  rw [nativeDecode_path_decode env lib w decoder_handle opus_data opus_length pcm_data
    frame_size hh hb hs]
  refine ⟨?_, rfl, rfl⟩
  rw [since_of_trace _ _ _ rfl]
  simp [List.filter, Event.isDecode]

/-- C3: for a non-zero handle, when the input bytes cannot be acquired, or
they are acquired and the pcm buffer cannot, `nativeDecode` returns
`OPUS_ALLOC_FAIL` (which is -7) and `opus_decode` is not invoked; in the first
case nothing is released, in the second the input array, and only it, is
released (with `JNI_ABORT`) before returning. -/
theorem nativeDecode_acquisition_failure (env : JNIEnv) (lib : Opus) (w : World)
    (decoder_handle : Int) (opus_data : List Int) (opus_length : Int) (pcm_data : List Int)
    (frame_size : Int) (hh : decoder_handle ≠ 0) :
    OPUS_ALLOC_FAIL = -7
    ∧ (env.GetByteArrayElements w opus_data = false →
        (nativeDecode env lib w decoder_handle opus_data opus_length pcm_data
            frame_size).ret = OPUS_ALLOC_FAIL
        ∧ ((nativeDecode env lib w decoder_handle opus_data opus_length pcm_data
            frame_size).world.since w).filter Event.isDecode = []
        ∧ ((nativeDecode env lib w decoder_handle opus_data opus_length pcm_data
            frame_size).world.since w).filter Event.isRelease = [])
    ∧ (env.GetByteArrayElements w opus_data = true →
        env.GetShortArrayElements (afterBytes w opus_data) pcm_data = false →
        (nativeDecode env lib w decoder_handle opus_data opus_length pcm_data
            frame_size).ret = OPUS_ALLOC_FAIL
        ∧ ((nativeDecode env lib w decoder_handle opus_data opus_length pcm_data
            frame_size).world.since w).filter Event.isDecode = []
        ∧ ((nativeDecode env lib w decoder_handle opus_data opus_length pcm_data
            frame_size).world.since w).filter Event.isRelease
          = [Event.ReleaseByteArrayElements opus_data opus_data JNI_ABORT]) := by
  refine ⟨rfl, ?_, ?_⟩
  · intro hb
    rw [nativeDecode_path_noBytes env lib w decoder_handle opus_data opus_length pcm_data
      frame_size hh hb, since_of_trace _ _ _ rfl]
    simp [List.filter, Event.isDecode, Event.isRelease]
  · intro hb hs
    rw [nativeDecode_path_noShorts env lib w decoder_handle opus_data opus_length pcm_data
      frame_size hh hb hs, since_of_trace _ _ _ rfl]
    simp [List.filter, Event.isDecode, Event.isRelease]

/-- Witness of C3: the pcm buffer of a two-byte frame cannot be pinned. -/
theorem nativeDecode_acquisition_failure_witness :
    (nativeDecode envNoShorts libSample World.init 4096 [1, 2] 2 [0, 0] 1).ret = -7
    ∧ (nativeDecode envNoBytes libSample World.init 4096 [1, 2] 2 [0, 0] 1).ret = -7 :=
  ⟨((nativeDecode_acquisition_failure envNoShorts libSample World.init 4096 [1, 2] 2
      [0, 0] 1 (by decide)).2.2 rfl rfl).1,
   ((nativeDecode_acquisition_failure envNoBytes libSample World.init 4096 [1, 2] 2
      [0, 0] 1 (by decide)).2.1 rfl).1⟩

/-- Witness of C2: a three-byte frame decoded through handle 4096. -/
theorem nativeDecode_forwards_to_opus_decode_witness :
    (nativeDecode envOk libSample World.init 4096 [1, 2, 3] 3 [7, 7] 2).ret = 2
    ∧ (nativeDecode envOk libSample World.init 4096 [1, 2, 3] 3 [7, 7] 2).pcm_data = [0, 0] :=
  ⟨(nativeDecode_forwards_to_opus_decode envOk libSample World.init 4096 [1, 2, 3] 3
      [7, 7] 2 (by decide) rfl rfl).2.1,
   (nativeDecode_forwards_to_opus_decode envOk libSample World.init 4096 [1, 2, 3] 3
      [7, 7] 2 (by decide) rfl rfl).2.2⟩

/-- C9: on every path of `nativeDecode` the arrays acquired from the JNI
environment are exactly the arrays released before it returns: each is
acquired at most once, released as often as it was acquired, and never
released before it was acquired. The input array is only ever released with
`JNI_ABORT` and the caller's byte array is unchanged; the pcm array is only
ever released with mode 0 and never before the decode call, whatever the
codec returned. -/
theorem nativeDecode_releases_what_it_acquires (env : JNIEnv) (lib : Opus) (w : World)
    (decoder_handle : Int) (opus_data : List Int) (opus_length : Int) (pcm_data : List Int)
    (frame_size : Int) :
    ((nativeDecode env lib w decoder_handle opus_data opus_length pcm_data
        frame_size).world.since w).countP Event.releasedBytes
      = ((nativeDecode env lib w decoder_handle opus_data opus_length pcm_data
        frame_size).world.since w).countP Event.acquiredBytes
    ∧ ((nativeDecode env lib w decoder_handle opus_data opus_length pcm_data
        frame_size).world.since w).countP Event.releasedShorts
      = ((nativeDecode env lib w decoder_handle opus_data opus_length pcm_data
        frame_size).world.since w).countP Event.acquiredShorts
    ∧ ((nativeDecode env lib w decoder_handle opus_data opus_length pcm_data
        frame_size).world.since w).countP Event.acquiredBytes ≤ 1
    ∧ ((nativeDecode env lib w decoder_handle opus_data opus_length pcm_data
        frame_size).world.since w).countP Event.acquiredShorts ≤ 1
    ∧ (∀ array elems mode, Event.ReleaseByteArrayElements array elems mode
          ∈ (nativeDecode env lib w decoder_handle opus_data opus_length pcm_data
              frame_size).world.since w →
        array = opus_data ∧ mode = JNI_ABORT)
    ∧ (∀ array elems mode, Event.ReleaseShortArrayElements array elems mode
          ∈ (nativeDecode env lib w decoder_handle opus_data opus_length pcm_data
              frame_size).world.since w →
        array = pcm_data ∧ mode = 0)
    ∧ (((nativeDecode env lib w decoder_handle opus_data opus_length pcm_data
          frame_size).world.since w).takeWhile (fun e => !e.acquiredBytes)).filter
        Event.releasedBytes = []
    ∧ (((nativeDecode env lib w decoder_handle opus_data opus_length pcm_data
          frame_size).world.since w).takeWhile (fun e => !e.acquiredShorts)).filter
        Event.releasedShorts = []
    ∧ (((nativeDecode env lib w decoder_handle opus_data opus_length pcm_data
          frame_size).world.since w).takeWhile (fun e => !e.isDecode)).filter
        Event.releasedShorts = []
    ∧ (nativeDecode env lib w decoder_handle opus_data opus_length pcm_data
        frame_size).opus_data = opus_data := by
  by_cases hh : decoder_handle = 0
  · subst hh
    rw [nativeDecode_path_zero, since_of_trace _ _ _ rfl]
    simp [List.takeWhile, List.filter, Event.releasedBytes, Event.acquiredBytes,
      Event.releasedShorts, Event.acquiredShorts, Event.isDecode]
  · cases hb : env.GetByteArrayElements w opus_data
    · rw [nativeDecode_path_noBytes env lib w decoder_handle opus_data opus_length pcm_data
        frame_size hh hb, since_of_trace _ _ _ rfl]
      simp [List.takeWhile, List.filter, Event.releasedBytes, Event.acquiredBytes,
        Event.releasedShorts, Event.acquiredShorts, Event.isDecode]
    · cases hs : env.GetShortArrayElements (afterBytes w opus_data) pcm_data
      · rw [nativeDecode_path_noShorts env lib w decoder_handle opus_data opus_length
          pcm_data frame_size hh hb hs, since_of_trace _ _ _ rfl]
        simp [List.takeWhile, List.filter, Event.releasedBytes, Event.acquiredBytes,
          Event.releasedShorts, Event.acquiredShorts, Event.isDecode]
        intro array elems mode ha _ hm
        exact ⟨ha, hm⟩
      · rw [nativeDecode_path_decode env lib w decoder_handle opus_data opus_length
          pcm_data frame_size hh hb hs, since_of_trace _ _ _ rfl]
        simp [List.takeWhile, List.filter, Event.releasedBytes, Event.acquiredBytes,
          Event.releasedShorts, Event.acquiredShorts, Event.isDecode]
        exact ⟨fun _ _ _ ha _ hm => ⟨ha, hm⟩, fun _ _ _ ha _ hm => ⟨ha, hm⟩⟩

/-- C10: `nativeDecode` checks no length: for a non-zero handle and both
buffers acquired, `opus_decode` is invoked with the caller's `opus_length` and
`frame_size` as given. It is so invoked with an `opus_length` beyond the input
array, with a negative `opus_length`, and with a `frame_size` times the
channel count beyond the pcm array. -/
theorem nativeDecode_no_bounds_validation :
    (∀ (env : JNIEnv) (lib : Opus) (w : World) (decoder_handle : Int)
        (opus_data : List Int) (opus_length : Int) (pcm_data : List Int) (frame_size : Int),
        decoder_handle ≠ 0 →
        env.GetByteArrayElements w opus_data = true →
        env.GetShortArrayElements (afterBytes w opus_data) pcm_data = true →
        Event.opus_decode (reinterpret_cast_OpusDecoder decoder_handle) opus_data
            opus_length pcm_data frame_size 0
            (lib.opus_decode (afterShorts w opus_data pcm_data)
              (reinterpret_cast_OpusDecoder decoder_handle)
              opus_data opus_length pcm_data frame_size 0).1
          ∈ (nativeDecode env lib w decoder_handle opus_data opus_length pcm_data
              frame_size).world.since w)
    ∧ (((([1, 2, 3] : List Int).length : Int) < 1000)
        ∧ Event.opus_decode 4096 [1, 2, 3] 1000 [0, 0] 2 0 2
          ∈ (nativeDecode envOk libSample World.init 4096 [1, 2, 3] 1000 [0, 0]
              2).world.since World.init)
    ∧ (((-5 : Int) < 0)
        ∧ Event.opus_decode 4096 [1, 2, 3] (-5) [0, 0] 2 0 2
          ∈ (nativeDecode envOk libSample World.init 4096 [1, 2, 3] (-5) [0, 0]
              2).world.since World.init)
    ∧ ((nativeCreateDecoder libSample World.init 48000 2).1 = 4096
        ∧ ((([0, 0] : List Int).length : Int) < 960 * 2)
        ∧ Event.opus_decode 4096 [1, 2, 3] 3 [0, 0] 960 0 960
          ∈ (nativeDecode envOk libSample
              (nativeCreateDecoder libSample World.init 48000 2).2
              (nativeCreateDecoder libSample World.init 48000 2).1
              [1, 2, 3] 3 [0, 0] 960).world.since
                (nativeCreateDecoder libSample World.init 48000 2).2) := by
  have hgen : ∀ (env : JNIEnv) (lib : Opus) (w : World) (decoder_handle : Int)
      (opus_data : List Int) (opus_length : Int) (pcm_data : List Int) (frame_size : Int),
      decoder_handle ≠ 0 →
      env.GetByteArrayElements w opus_data = true →
      env.GetShortArrayElements (afterBytes w opus_data) pcm_data = true →
      Event.opus_decode (reinterpret_cast_OpusDecoder decoder_handle) opus_data
          opus_length pcm_data frame_size 0
          (lib.opus_decode (afterShorts w opus_data pcm_data)
            (reinterpret_cast_OpusDecoder decoder_handle)
            opus_data opus_length pcm_data frame_size 0).1
        ∈ (nativeDecode env lib w decoder_handle opus_data opus_length pcm_data
            frame_size).world.since w := by
    intro env lib w decoder_handle opus_data opus_length pcm_data frame_size hh hb hs
    rw [nativeDecode_path_decode env lib w decoder_handle opus_data opus_length pcm_data
      frame_size hh hb hs, since_of_trace _ _ _ rfl]
    simp
  have hc : (nativeCreateDecoder libSample World.init 48000 2).1 = 4096 := by
    simp [nativeCreateDecoder, call_opus_decoder_create, libSample, OPUS_OK, nullptr,
      reinterpret_cast_jlong, LOGI, World.emit]
  have hp : reinterpret_cast_OpusDecoder 4096 = 4096 := by
    simp [reinterpret_cast_OpusDecoder]
  refine ⟨hgen, ⟨by decide, ?_⟩, ⟨by decide, ?_⟩, hc, by decide, ?_⟩
  · have h := hgen envOk libSample World.init 4096 [1, 2, 3] 1000 [0, 0] 2 (by decide)
      rfl rfl
    rw [hp] at h
    exact h
  · have h := hgen envOk libSample World.init 4096 [1, 2, 3] (-5) [0, 0] 2 (by decide)
      rfl rfl
    rw [hp] at h
    exact h
  · rw [hc]
    have h := hgen envOk libSample (nativeCreateDecoder libSample World.init 48000 2).2
      4096 [1, 2, 3] 3 [0, 0] 960 (by decide) rfl rfl
    rw [hp] at h
    exact h

/-! ## Handles -/

theorem reinterpret_cast_jlong_ne_zero (p : Ptr) (hp : p % 2 ^ 64 ≠ 0) :
    reinterpret_cast_jlong p ≠ 0 := by
  have key : ∀ m : Nat, m ≠ 0 → m < 2 ^ 64 →
      (if m < 2 ^ 63 then ((m : Nat) : Int) else ((m : Nat) : Int) - 2 ^ 64) ≠ 0 := by
    intro m h1 h2
    norm_num at h2 ⊢
    split_ifs <;> omega
  exact key _ hp (Nat.mod_lt _ (by norm_num))

theorem reinterpret_cast_roundtrip (p : Ptr) :
    reinterpret_cast_OpusDecoder (reinterpret_cast_jlong p) = p % 2 ^ 64 := by
  have key : ∀ m : Nat, m < 2 ^ 64 →
      ((if m < 2 ^ 63 then ((m : Nat) : Int) else ((m : Nat) : Int) - 2 ^ 64)
        % 2 ^ 64).toNat = m := by
    intro m h2
    norm_num at h2 ⊢
    split_ifs <;> omega
  exact key _ (Nat.mod_lt _ (by norm_num))

/-! ## The outcome of `nativeCreateDecoder` on each of its paths -/

theorem nativeCreateDecoder_path_fail (lib : Opus) (w : World) (sample_rate channels : Int)
    (h : (createAnswer lib w sample_rate channels).1 ≠ OPUS_OK
      ∨ (createAnswer lib w sample_rate channels).2 = nullptr) :
    nativeCreateDecoder lib w sample_rate channels =
      (0, { live := if (createAnswer lib w sample_rate channels).2 = nullptr then w.live
                    else w.live ++ [(createAnswer lib w sample_rate channels).2],
            trace := w.trace ++
              [Event.log LogPriority.ANDROID_LOG_INFO
                 "Creating Opus decoder: %dHz, %d channel(s)",
               Event.opus_decoder_create sample_rate channels
                 (createAnswer lib w sample_rate channels).1
                 (createAnswer lib w sample_rate channels).2,
               Event.log LogPriority.ANDROID_LOG_ERROR "Failed to create decoder: %s"] }) := by
  simp only [createAnswer] at h ⊢
  simp only [nativeCreateDecoder, if_pos h]
  simp [call_opus_decoder_create, LOGI, LOGE, World.emit]

theorem nativeCreateDecoder_path_ok (lib : Opus) (w : World) (sample_rate channels : Int)
    (he : (createAnswer lib w sample_rate channels).1 = OPUS_OK)
    (hp : (createAnswer lib w sample_rate channels).2 ≠ nullptr) :
    nativeCreateDecoder lib w sample_rate channels =
      (reinterpret_cast_jlong (createAnswer lib w sample_rate channels).2,
       { live := w.live ++ [(createAnswer lib w sample_rate channels).2],
         trace := w.trace ++
           [Event.log LogPriority.ANDROID_LOG_INFO
              "Creating Opus decoder: %dHz, %d channel(s)",
            Event.opus_decoder_create sample_rate channels
              (createAnswer lib w sample_rate channels).1
              (createAnswer lib w sample_rate channels).2,
            Event.log LogPriority.ANDROID_LOG_INFO
              "✓ Decoder created successfully at %p"] }) := by
  have hn : ¬ ((createAnswer lib w sample_rate channels).1 ≠ OPUS_OK
      ∨ (createAnswer lib w sample_rate channels).2 = nullptr) := by
    rintro (h | h)
    · exact h he
    · exact hp h
  simp only [createAnswer] at hn hp ⊢
  simp only [nativeCreateDecoder, if_neg hn]
  simp only [call_opus_decoder_create, LOGI, World.emit] at hp ⊢
  rw [if_neg hp]
  simp

theorem createAnswer_lt (lib : Opus) (w : World) (sample_rate channels : Int) :
    (createAnswer lib w sample_rate channels).2 % 2 ^ 64
      = (createAnswer lib w sample_rate channels).2 := by
  simp [createAnswer, call_opus_decoder_create]

/-! ## The outcome of `nativeDestroyDecoder` and `nativeResetDecoder` -/

theorem nativeDestroyDecoder_path_zero (w : World) :
    nativeDestroyDecoder w 0 =
      ((), { live := w.live,
             trace := w.trace ++
               [Event.log LogPriority.ANDROID_LOG_ERROR
                  "Invalid decoder handle for destroy"] }) := by
  simp [nativeDestroyDecoder, LOGE, World.emit]

theorem nativeDestroyDecoder_path_nonzero (w : World) (decoder_handle : Int)
    (hh : decoder_handle ≠ 0) :
    nativeDestroyDecoder w decoder_handle =
      ((), { live := w.live.filter
               (fun q => q ≠ reinterpret_cast_OpusDecoder decoder_handle),
             trace := w.trace ++
               [Event.opus_decoder_destroy (reinterpret_cast_OpusDecoder decoder_handle),
                Event.log LogPriority.ANDROID_LOG_INFO "✓ Decoder destroyed at %p"] }) := by
  simp [nativeDestroyDecoder, hh, call_opus_decoder_destroy, LOGI, World.emit]

theorem nativeResetDecoder_path_zero (lib : Opus) (w : World) :
    nativeResetDecoder lib w 0 =
      ((), { live := w.live,
             trace := w.trace ++
               [Event.log LogPriority.ANDROID_LOG_ERROR
                  "Invalid decoder handle for reset"] }) := by
  simp [nativeResetDecoder, LOGE, World.emit]

theorem nativeResetDecoder_path_nonzero (lib : Opus) (w : World) (decoder_handle : Int)
    (hh : decoder_handle ≠ 0) :
    nativeResetDecoder lib w decoder_handle =
      ((), { live := w.live,
             trace := w.trace ++
               [Event.opus_decoder_ctl (reinterpret_cast_OpusDecoder decoder_handle)
                  OPUS_RESET_STATE (resetAnswer lib w decoder_handle),
                Event.log
                  (if resetAnswer lib w decoder_handle ≠ OPUS_OK
                   then LogPriority.ANDROID_LOG_ERROR else LogPriority.ANDROID_LOG_INFO)
                  (if resetAnswer lib w decoder_handle ≠ OPUS_OK
                   then "Failed to reset decoder: %s"
                   else "Decoder reset successfully")] }) := by
  simp only [nativeResetDecoder, if_neg hh, resetAnswer, call_opus_decoder_ctl, LOGE, LOGI,
    World.emit]
  split_ifs <;> simp

/-! ## `nativeCreateDecoder` -/

/-- C4: `nativeCreateDecoder` returns 0 whenever `opus_decoder_create` reports
an error other than `OPUS_OK` or yields a null state; when it reports
`OPUS_OK` with a non-null state, the handle is that state's address read as a
`jlong`, it is not 0, and it casts back to that state. Hence the handle is 0
exactly when creation failed. -/
theorem nativeCreateDecoder_zero_iff_failed (lib : Opus) (w : World)
    (sample_rate channels : Int) :
    ((createAnswer lib w sample_rate channels).1 ≠ OPUS_OK
        ∨ (createAnswer lib w sample_rate channels).2 = nullptr →
      (nativeCreateDecoder lib w sample_rate channels).1 = 0)
    ∧ ((createAnswer lib w sample_rate channels).1 = OPUS_OK →
        (createAnswer lib w sample_rate channels).2 ≠ nullptr →
        (nativeCreateDecoder lib w sample_rate channels).1
            = reinterpret_cast_jlong (createAnswer lib w sample_rate channels).2
          ∧ (nativeCreateDecoder lib w sample_rate channels).1 ≠ 0
          ∧ reinterpret_cast_OpusDecoder (nativeCreateDecoder lib w sample_rate channels).1
            = (createAnswer lib w sample_rate channels).2)
    ∧ ((nativeCreateDecoder lib w sample_rate channels).1 = 0 ↔
        ((createAnswer lib w sample_rate channels).1 ≠ OPUS_OK
          ∨ (createAnswer lib w sample_rate channels).2 = nullptr)) := by
  have hok : (createAnswer lib w sample_rate channels).1 = OPUS_OK →
      (createAnswer lib w sample_rate channels).2 ≠ nullptr →
      (nativeCreateDecoder lib w sample_rate channels).1
          = reinterpret_cast_jlong (createAnswer lib w sample_rate channels).2
        ∧ (nativeCreateDecoder lib w sample_rate channels).1 ≠ 0
        ∧ reinterpret_cast_OpusDecoder (nativeCreateDecoder lib w sample_rate channels).1
          = (createAnswer lib w sample_rate channels).2 := by
    intro he hp
    rw [nativeCreateDecoder_path_ok lib w sample_rate channels he hp]
    refine ⟨rfl, ?_, ?_⟩
    · apply reinterpret_cast_jlong_ne_zero
      rw [createAnswer_lt]
      exact hp
    · show reinterpret_cast_OpusDecoder (reinterpret_cast_jlong _) = _
      rw [reinterpret_cast_roundtrip, createAnswer_lt]
  refine ⟨?_, hok, ?_, ?_⟩
  · intro h
    rw [nativeCreateDecoder_path_fail lib w sample_rate channels h]
  · intro h0
    by_contra hn
    push_neg at hn
    exact (hok hn.1 hn.2).2.1 h0
  · intro h
    rw [nativeCreateDecoder_path_fail lib w sample_rate channels h]

/-- Witness of C4: the sample library creates a decoder for 48000 Hz stereo
and refuses the rate 999999. -/
theorem nativeCreateDecoder_zero_iff_failed_witness :
    (nativeCreateDecoder libSample World.init 48000 2).1 ≠ 0
    ∧ (nativeCreateDecoder libSample World.init 999999 1).1 = 0 :=
  ⟨((nativeCreateDecoder_zero_iff_failed libSample World.init 48000 2).2.1
      (by decide) (by decide)).2.1,
   (nativeCreateDecoder_zero_iff_failed libSample World.init 999999 1).1
      (Or.inl (by decide))⟩

/-- C5, as stated, fails: when creation reports an error and still hands back
a state (here at address 4096, for the rate 999999), `nativeCreateDecoder`
returns 0 without calling `opus_decoder_destroy`, and that state is live
afterwards although it was not before. -/
theorem nativeCreateDecoder_error_with_state_stays_live :
    (createAnswer libErrorWithState World.init 999999 1).1 ≠ OPUS_OK
    ∧ (createAnswer libErrorWithState World.init 999999 1).2 ≠ nullptr
    ∧ (nativeCreateDecoder libErrorWithState World.init 999999 1).1 = 0
    ∧ (nativeCreateDecoder libErrorWithState World.init 999999 1).2.live = [4096]
    ∧ (nativeCreateDecoder libErrorWithState World.init 999999 1).2.live
        ≠ World.init.live
    ∧ (((nativeCreateDecoder libErrorWithState World.init 999999 1).2.since
        World.init).filter Event.isDestroy) = [] := by
  have he : (createAnswer libErrorWithState World.init 999999 1).1 ≠ OPUS_OK := by decide
  have hp : (createAnswer libErrorWithState World.init 999999 1).2 = 4096 := by decide
  rw [nativeCreateDecoder_path_fail libErrorWithState World.init 999999 1 (Or.inl he),
    since_of_trace _ _ _ rfl, hp]
  refine ⟨he, by decide, rfl, by decide, by decide, ?_⟩
  simp [List.filter, Event.isDestroy]

/-- C5, amended: whenever `opus_decoder_create` yields a null state (as the
library does for an unsupported rate), `nativeCreateDecoder` returns 0, the
set of live native states is the same as before the call, and the release
routine is not invoked. -/
theorem nativeCreateDecoder_null_state_no_leak (lib : Opus) (w : World)
    (sample_rate channels : Int)
    (h : (createAnswer lib w sample_rate channels).2 = nullptr) :
    (nativeCreateDecoder lib w sample_rate channels).1 = 0
    ∧ (nativeCreateDecoder lib w sample_rate channels).2.live = w.live
    ∧ ((nativeCreateDecoder lib w sample_rate channels).2.since w).filter
        Event.isDestroy = [] := by
  rw [nativeCreateDecoder_path_fail lib w sample_rate channels (Or.inr h),
    since_of_trace _ _ _ rfl]
  refine ⟨rfl, ?_, ?_⟩
  · simp [h]
  · simp [List.filter, Event.isDestroy]

/-- Witness of C5, amended: the sample library refuses the rate 999999 with a
null state. -/
theorem nativeCreateDecoder_null_state_no_leak_witness :
    (createAnswer libSample World.init 999999 1).2 = nullptr
    ∧ (nativeCreateDecoder libSample World.init 999999 1).1 = 0
    ∧ (nativeCreateDecoder libSample World.init 999999 1).2.live = [] :=
  ⟨by decide,
   (nativeCreateDecoder_null_state_no_leak libSample World.init 999999 1 (by decide)).1,
   (nativeCreateDecoder_null_state_no_leak libSample World.init 999999 1 (by decide)).2.1⟩

/-! ## `nativeDestroyDecoder` and `nativeResetDecoder` -/

/-- C7: with handle 0, `nativeDestroyDecoder` does not invoke
`opus_decoder_destroy` and the set of live native states is unchanged. With a
non-zero handle it invokes `opus_decoder_destroy` exactly once, on the state
the handle stands for and on no other: afterwards that state is not live and
every other state is live exactly if it was before. -/
theorem nativeDestroyDecoder_releases_only_its_state (w : World) :
    ((nativeDestroyDecoder w 0).2.live = w.live
      ∧ ((nativeDestroyDecoder w 0).2.since w).filter Event.isDestroy = [])
    ∧ (∀ decoder_handle : Int, decoder_handle ≠ 0 →
        ((nativeDestroyDecoder w decoder_handle).2.since w).filter Event.isDestroy
          = [Event.opus_decoder_destroy (reinterpret_cast_OpusDecoder decoder_handle)]
        ∧ reinterpret_cast_OpusDecoder decoder_handle
            ∉ (nativeDestroyDecoder w decoder_handle).2.live
        ∧ (∀ q : Ptr, q ≠ reinterpret_cast_OpusDecoder decoder_handle →
            (q ∈ (nativeDestroyDecoder w decoder_handle).2.live ↔ q ∈ w.live))) := by
  refine ⟨?_, ?_⟩
  · rw [nativeDestroyDecoder_path_zero, since_of_trace _ _ _ rfl]
    exact ⟨rfl, by simp [List.filter, Event.isDestroy]⟩
  · intro decoder_handle hh
    rw [nativeDestroyDecoder_path_nonzero w decoder_handle hh, since_of_trace _ _ _ rfl]
    refine ⟨by simp [List.filter, Event.isDestroy], ?_, ?_⟩
    · simp [List.mem_filter]
    · intro q hq
      simp [List.mem_filter, hq]

/-- C8: with handle 0, `nativeResetDecoder` sends no control request. With a
non-zero handle it sends exactly one request, `OPUS_RESET_STATE` (4028), to
the state the handle stands for, and does not invoke the release routine; the
set of live native states is the same before and after, whether the request
answers `OPUS_OK` or an error. Nothing is returned in either case. -/
theorem nativeResetDecoder_resets_without_deallocating (lib : Opus) (w : World) :
    (((nativeResetDecoder lib w 0).2.since w).filter Event.isCtl = []
      ∧ (nativeResetDecoder lib w 0).2.live = w.live
      ∧ (nativeResetDecoder lib w 0).1 = ())
    ∧ OPUS_RESET_STATE = 4028
    ∧ (∀ decoder_handle : Int, decoder_handle ≠ 0 →
        ((nativeResetDecoder lib w decoder_handle).2.since w).filter Event.isCtl
          = [Event.opus_decoder_ctl (reinterpret_cast_OpusDecoder decoder_handle)
              OPUS_RESET_STATE (resetAnswer lib w decoder_handle)]
        ∧ ((nativeResetDecoder lib w decoder_handle).2.since w).filter Event.isDestroy = []
        ∧ (nativeResetDecoder lib w decoder_handle).2.live = w.live
        ∧ (nativeResetDecoder lib w decoder_handle).1 = ()) := by
  refine ⟨?_, rfl, ?_⟩
  · rw [nativeResetDecoder_path_zero, since_of_trace _ _ _ rfl]
    exact ⟨by simp [List.filter, Event.isCtl], rfl, rfl⟩
  · intro decoder_handle hh
    rw [nativeResetDecoder_path_nonzero lib w decoder_handle hh, since_of_trace _ _ _ rfl]
    exact ⟨by simp [List.filter, Event.isCtl], by simp [List.filter, Event.isDestroy],
      rfl, rfl⟩

/-! ## Decoding through a destroyed handle -/

/-- C6, as stated, fails: the handle 4096 is obtained from
`nativeCreateDecoder` and passed to `nativeDestroyDecoder`, after which its
state is not live; a subsequent `nativeDecode` through it invokes
`opus_decode` on that state, returns what the primitive returned (2, not
`OPUS_INVALID_STATE`) and the pcm array is overwritten. -/
theorem nativeDecode_destroyed_handle_reaches_codec :
    runCreated.1 = 4096
    ∧ runCreated.2.live = [4096]
    ∧ runDestroyed.live = []
    ∧ Event.opus_decode 4096 [1, 2, 3] 3 [7, 7] 2 0 2
        ∈ runDecodeAfterDestroy.world.since runDestroyed
    ∧ runDecodeAfterDestroy.ret = 2
    ∧ runDecodeAfterDestroy.ret ≠ OPUS_INVALID_STATE
    ∧ runDecodeAfterDestroy.pcm_data = [0, 0]
    ∧ runDecodeAfterDestroy.pcm_data ≠ [7, 7] := by
  have hc : runCreated.1 = 4096 := by
    simp [runCreated, nativeCreateDecoder, call_opus_decoder_create, libSample, OPUS_OK,
      nullptr, reinterpret_cast_jlong, LOGI, World.emit]
  have hl : runCreated.2.live = [4096] := by
    simp [runCreated, nativeCreateDecoder, call_opus_decoder_create, libSample, OPUS_OK,
      nullptr, reinterpret_cast_jlong, LOGI, World.emit, World.init]
  have hp : reinterpret_cast_OpusDecoder 4096 = 4096 := by
    simp [reinterpret_cast_OpusDecoder]
  have hd : runDestroyed.live = [] := by
    unfold runDestroyed
    rw [hc, nativeDestroyDecoder_path_nonzero _ 4096 (by decide), hp]
    simp [hl]
  have hrun : runDecodeAfterDestroy
      = nativeDecode envOk libSample runDestroyed 4096 [1, 2, 3] 3 [7, 7] 2 := by
    unfold runDecodeAfterDestroy
    rw [hc]
  rw [hrun, nativeDecode_path_decode envOk libSample runDestroyed 4096 [1, 2, 3] 3 [7, 7] 2
    (by decide) rfl rfl, since_of_trace _ _ _ rfl, hp]
  refine ⟨hc, hl, hd, ?_, rfl, ?_, rfl, ?_⟩
  · simp [libSample]
  · simp [libSample, OPUS_INVALID_STATE]
  · simp [libSample]

/-- C6, amended: only the handle 0 is rejected. For handle 0 `nativeDecode`
returns `OPUS_INVALID_STATE`, does not invoke `opus_decode` and leaves the pcm
array as it was. For a non-zero handle that has been passed to
`nativeDestroyDecoder` (so that its state is no longer live), when both
buffers are acquired `nativeDecode` invokes `opus_decode` once on the state
the handle stood for, returns the integer the primitive returns and stores
what the primitive wrote in the pcm array. -/
theorem nativeDecode_rejects_only_zero_handle (env : JNIEnv) (lib : Opus) (w : World)
    (decoder_handle : Int) (opus_data : List Int) (opus_length : Int) (pcm_data : List Int)
    (frame_size : Int) (hh : decoder_handle ≠ 0)
    (hb : env.GetByteArrayElements (nativeDestroyDecoder w decoder_handle).2 opus_data = true)
    (hs : env.GetShortArrayElements
      (afterBytes (nativeDestroyDecoder w decoder_handle).2 opus_data) pcm_data = true) :
    ((nativeDecode env lib w 0 opus_data opus_length pcm_data frame_size).ret
        = OPUS_INVALID_STATE
      ∧ ((nativeDecode env lib w 0 opus_data opus_length pcm_data
          frame_size).world.since w).filter Event.isDecode = []
      ∧ (nativeDecode env lib w 0 opus_data opus_length pcm_data frame_size).pcm_data
        = pcm_data)
    ∧ reinterpret_cast_OpusDecoder decoder_handle
        ∉ (nativeDestroyDecoder w decoder_handle).2.live
    ∧ ((nativeDecode env lib (nativeDestroyDecoder w decoder_handle).2 decoder_handle
          opus_data opus_length pcm_data frame_size).world.since
            (nativeDestroyDecoder w decoder_handle).2).filter Event.isDecode
        = [Event.opus_decode (reinterpret_cast_OpusDecoder decoder_handle) opus_data
            opus_length pcm_data frame_size 0
            (nativeDecode env lib (nativeDestroyDecoder w decoder_handle).2 decoder_handle
              opus_data opus_length pcm_data frame_size).ret]
    ∧ (nativeDecode env lib (nativeDestroyDecoder w decoder_handle).2 decoder_handle
          opus_data opus_length pcm_data frame_size).ret
        = (lib.opus_decode
            (afterShorts (nativeDestroyDecoder w decoder_handle).2 opus_data pcm_data)
            (reinterpret_cast_OpusDecoder decoder_handle)
            opus_data opus_length pcm_data frame_size 0).1
    ∧ (nativeDecode env lib (nativeDestroyDecoder w decoder_handle).2 decoder_handle
          opus_data opus_length pcm_data frame_size).pcm_data
        = (lib.opus_decode
            (afterShorts (nativeDestroyDecoder w decoder_handle).2 opus_data pcm_data)
            (reinterpret_cast_OpusDecoder decoder_handle)
            opus_data opus_length pcm_data frame_size 0).2 := by
  refine ⟨?_, ?_, ?_⟩
  · rw [nativeDecode_path_zero, since_of_trace _ _ _ rfl]
    exact ⟨rfl, by simp [List.filter, Event.isDecode], rfl⟩
  · rw [nativeDestroyDecoder_path_nonzero w decoder_handle hh]
    simp [List.mem_filter]
  · rw [nativeDecode_path_decode env lib (nativeDestroyDecoder w decoder_handle).2
      decoder_handle opus_data opus_length pcm_data frame_size hh hb hs,
      since_of_trace _ _ _ rfl]
    exact ⟨by simp [List.filter, Event.isDecode], rfl, rfl⟩

/-- Witness of C6, amended: the handle created and destroyed in the sample
run, then used to decode a three-byte frame. -/
theorem nativeDecode_rejects_only_zero_handle_witness :
    (nativeDecode envOk libSample (nativeDestroyDecoder runCreated.2 4096).2 4096
        [1, 2, 3] 3 [7, 7] 2).ret = 2
    ∧ (nativeDecode envOk libSample runCreated.2 0 [1, 2, 3] 3 [7, 7] 2).ret = -6 :=
  ⟨(nativeDecode_rejects_only_zero_handle envOk libSample runCreated.2 4096 [1, 2, 3] 3
      [7, 7] 2 (by decide) rfl rfl).2.2.2.1,
   (nativeDecode_rejects_only_zero_handle envOk libSample runCreated.2 4096 [1, 2, 3] 3
      [7, 7] 2 (by decide) rfl rfl).1.1⟩

end OpusJni
